import Mathlib

/-!
Verification development for the disk-image-inspector decoder.

The definitions below are a shallow embedding of the Rust sources
(src/bin/disk-image-inspector/src/{bootsector,errors,fat,gpt,main}.rs):

* a disk image is a byte source `Disk` (a size together with a byte-at-offset
  function); `read_exact` succeeds exactly when the requested window lies
  inside the image, matching `Seek`/`read_exact` on a file;
* machine integers are modelled as `Nat`; little-endian field extraction uses
  the same shift/or combinations as `u16::from_le_bytes`/`u32::from_le_bytes`;
* Rust panics (arithmetic underflow and division by zero in release-checked
  paths, out-of-bounds indexing, failing `try_into().unwrap()`) are modelled
  by `Option`/an explicit `panicked` outcome, so that non-total code paths are
  visible as the absence of a decoded value;
* error values mirror `ImageError` from errors.rs; where the Rust code stores
  a formatted `String` payload we store the underlying data instead (the
  formatting is display-only).
-/

namespace DiskImageInspector

/-- Little-endian 16-bit field at byte offset `off` of a byte window,
as in `u16::from_le_bytes`. -/
def le16 (data : Nat → Nat) (off : Nat) : Nat :=
  data off ||| (data (off + 1) <<< 8)

/-- Little-endian 32-bit field at byte offset `off` of a byte window,
as in `u32::from_le_bytes`. -/
def le32 (data : Nat → Nat) (off : Nat) : Nat :=
  data off ||| (data (off + 1) <<< 8) ||| (data (off + 2) <<< 16) ||| (data (off + 3) <<< 24)

/-- Little-endian 64-bit field at byte offset `off` of a byte window,
as in `u64::from_le_bytes`. -/
def le64 (data : Nat → Nat) (off : Nat) : Nat :=
  data off ||| (data (off + 1) <<< 8) ||| (data (off + 2) <<< 16) ||| (data (off + 3) <<< 24)
    ||| (data (off + 4) <<< 32) ||| (data (off + 5) <<< 40) ||| (data (off + 6) <<< 48)
    ||| (data (off + 7) <<< 56)

/-- The `len` bytes starting at offset `off` of a byte window (a Rust subslice
`data[off..off+len]` copied out). -/
def bytesAt (data : Nat → Nat) (off len : Nat) : List Nat :=
  (List.range len).map fun i => data (off + i)

/-- The error enumeration of errors.rs (`ImageError`).  String payloads that
the Rust code only builds for display (`expected`/`actual` of
`InvalidPartitionType`) are kept as the underlying code lists. -/
inductive ImageError where
  | InvalidGptHeaderRevision (revision : Nat)
  | InvalidGptHeaderSignature (signature : List Nat)
  | InvalidGptHeaderSize (size : Nat)
  | InvalidPartitionEntry (message : String)
  | InvalidPartitionType (expected : List Nat) (actual : Nat)
  | InvalidSignature (signature : List Nat)
deriving DecidableEq, Repr

instance exceptDecEq {ε α : Type} [DecidableEq ε] [DecidableEq α] :
    DecidableEq (Except ε α) := fun x y =>
  match x, y with
  | Except.ok a, Except.ok b =>
    if h : a = b then isTrue (by rw [h])
    else isFalse (by intro hc; injection hc; exact h (by assumption))
  | Except.error e, Except.error f =>
    if h : e = f then isTrue (by rw [h])
    else isFalse (by intro hc; injection hc; exact h (by assumption))
  | Except.ok _, Except.error _ => isFalse (by intro hc; exact Except.noConfusion hc)
  | Except.error _, Except.ok _ => isFalse (by intro hc; exact Except.noConfusion hc)

/-- A random-access byte source: the disk image.  `byte i` is the byte at
absolute offset `i`; offsets at or beyond `size` cannot be read. -/
structure Disk where
  size : Nat
  byte : Nat → Nat

/-- `reader.seek(Start(pos))` followed by `read_exact` of `len` bytes succeeds
iff the whole window is inside the image. -/
def Disk.read_exact_ok (d : Disk) (pos len : Nat) : Prop :=
  pos + len ≤ d.size

instance (d : Disk) (pos len : Nat) : Decidable (d.read_exact_ok pos len) := by
  unfold Disk.read_exact_ok; infer_instance

/-- CHS decode from 3 raw bytes (bootsector.rs, `CHSPosition::new`). -/
structure CHSPosition where
  cylinder : Nat
  head : Nat
  sector : Nat
deriving DecidableEq, Repr

def CHSPosition.new (b0 b1 b2 : Nat) : CHSPosition where
  cylinder := ((b1 &&& 0xc0) <<< 2) ||| b2
  head := b0
  sector := b1 &&& 0x3f

/-- Partition status bit flags (bootsector.rs, `PartitionStatusFlag`). -/
inductive PartitionStatusFlag where
  | Bootable
  | Unknown (bit : Nat)
deriving DecidableEq, Repr

/-- `PartitionStatusFlag::from_u8`: bit 7 is `Bootable`, bits 0..6 are
reported individually as `Unknown` flags. -/
def PartitionStatusFlag.from_u8 (value : Nat) : List PartitionStatusFlag :=
  (if value &&& 0x80 ≠ 0 then [PartitionStatusFlag.Bootable] else []) ++
    ((List.range 7).filterMap fun i =>
      if value &&& (1 <<< i) ≠ 0 then some (PartitionStatusFlag.Unknown i) else none)

/-- One row of the 256-entry `MBR_PARTITION_TYPES` table: the type code and
its extended-vs-regular classification.  The `name` strings of the table are
display-only and are not modelled. -/
structure MBRPartitionType where
  code : Nat
  is_extended : Bool
deriving DecidableEq, Repr

/-- The codes built with `MBRPartitionType::extended` in the source table
(bootsector.rs lines 132-392); every other code is `regular`. -/
def mbr_extended_codes : List Nat :=
  [0x05, 0x0f, 0x15, 0x1f, 0x85, 0x91, 0x9b, 0xc5, 0xd5, 0xea]

/-- `&MBR_PARTITION_TYPES[code]`: table row lookup.  Entry `i` of the source
table has code `i` (checked by the crate's own test), so the row is determined
by the code plus the extended classification above. -/
def mbr_partition_type_lookup (code : Nat) : MBRPartitionType where
  code := code
  is_extended := mbr_extended_codes.contains code

/-- A decoded 16-byte MBR partition-table entry (bootsector.rs,
`PartitionEntry`). -/
structure PartitionEntry where
  status : List PartitionStatusFlag
  chs_start : CHSPosition
  partition_type : MBRPartitionType
  chs_end : CHSPosition
  lba_start : Nat
  sector_count : Nat
deriving DecidableEq, Repr

/-- `PartitionEntry::new` on a 16-byte window:
status(1) | CHS-start(3) | type(1) | CHS-end(3) | LBA-start LE(4) | count LE(4). -/
def PartitionEntry.new (data : Nat → Nat) : PartitionEntry where
  status := PartitionStatusFlag.from_u8 (data 0)
  chs_start := CHSPosition.new (data 1) (data 2) (data 3)
  partition_type := mbr_partition_type_lookup (data 4)
  chs_end := CHSPosition.new (data 5) (data 6) (data 7)
  lba_start := le32 data 8
  sector_count := le32 data 12

def PartitionEntry.is_extended (e : PartitionEntry) : Bool :=
  e.partition_type.is_extended

/-- A decoded 512-byte boot sector: 4 partition entries plus the raw 2-byte
signature (bootsector.rs, `BootSector`). -/
structure BootSector where
  partitions : List PartitionEntry
  signature : List Nat
deriving DecidableEq, Repr

/-- `BootSector::from_disk_image`: seek to `start_pos`, read exactly 512
bytes (`none` models the I/O error of a failed seek/short read), decode the 4
partition entries at offset 446 and store the 2 signature bytes at offset 510.
No signature validation happens here. -/
def BootSector.from_disk_image (disk : Disk) (start_pos : Nat) : Option BootSector :=
  if start_pos + 512 ≤ disk.size then
    let data : Nat → Nat := fun i => disk.byte (start_pos + i)
    some
      { partitions :=
          [PartitionEntry.new fun i => data (446 + i),
           PartitionEntry.new fun i => data (446 + 16 + i),
           PartitionEntry.new fun i => data (446 + 2 * 16 + i),
           PartitionEntry.new fun i => data (446 + 3 * 16 + i)],
        signature := [data 510, data 511] }
  else
    none

/-- The boot-sector signature check performed by `run` (main.rs lines 89-95)
on the outermost MBR only. -/
def run_check_signature (bs : BootSector) : Except ImageError Unit :=
  if bs.signature ≠ [0x55, 0xaa] then
    Except.error (ImageError.InvalidSignature bs.signature)
  else
    Except.ok ()

/-- Errors the MBR/EBR walk can surface: a decoder `ImageError`, or an
underlying I/O failure (short read past the end of the image). -/
inductive WalkError where
  | image (e : ImageError)
  | ioError
deriving DecidableEq, Repr

/-- `PartitionEntry::get_extended_boot_sector` (bootsector.rs lines 430-458):
refuse non-extended entries and CHS-only (zero-LBA) entries, otherwise decode
the boot sector at `my_boot_sector_start_pos + lba_start * 512` and return it
together with that resolved position. -/
def PartitionEntry.get_extended_boot_sector (e : PartitionEntry) (disk : Disk)
    (my_boot_sector_start_pos : Nat) : Except WalkError (BootSector × Nat) :=
  if !e.partition_type.is_extended then
    Except.error (WalkError.image
      (ImageError.InvalidPartitionType mbr_extended_codes e.partition_type.code))
  else if e.lba_start = 0 then
    Except.error (WalkError.image
      (ImageError.InvalidPartitionEntry "Cannot handle CHS extended partitions"))
  else
    let start_pos := my_boot_sector_start_pos + e.lba_start * 512
    match BootSector.from_disk_image disk start_pos with
    | none => Except.error WalkError.ioError
    | some bs => Except.ok (bs, start_pos)

/-- The extended-entry sweep of `print_mbr_partition_table` (main.rs lines
151-157) restricted to its traversal structure: for each extended entry of the
current sector, resolve and decode the next boot sector via
`get_extended_boot_sector` with the CURRENT sector's start position, then
recurse into it with the resolved position as the new base.  Returns the list
of visited EBR positions in visit order.  `fuel` bounds the recursion depth,
which the source leaves unbounded. -/
def walk_entries (disk : Disk) (recur : BootSector → Nat → Except WalkError (List Nat)) :
    List PartitionEntry → Nat → Except WalkError (List Nat)
  | [], _ => Except.ok []
  | e :: rest, start_pos =>
    if e.is_extended then
      match e.get_extended_boot_sector disk start_pos with
      | Except.error err => Except.error err
      | Except.ok (bs, new_start_pos) =>
        match recur bs new_start_pos with
        | Except.error err => Except.error err
        | Except.ok inner =>
          match walk_entries disk recur rest start_pos with
          | Except.error err => Except.error err
          | Except.ok tail => Except.ok (new_start_pos :: inner ++ tail)
    else
      walk_entries disk recur rest start_pos

def walk_extended (disk : Disk) : Nat → BootSector → Nat → Except WalkError (List Nat)
  | 0, _, _ => Except.ok []
  | fuel + 1, bs, start_pos =>
    walk_entries disk (fun b p => walk_extended disk fuel b p) bs.partitions start_pos

/-- The FAT-width tag (fat.rs, `FatType`). -/
inductive FatType where
  | Fat12
  | Fat16
  | Fat32
deriving DecidableEq, Repr, Inhabited

/-- `u16::from_le_bytes(slice.try_into().unwrap())`: `none` models the panic
of `unwrap` when the slice does not hold exactly 2 bytes. -/
def u16_from_le_bytes : List Nat → Option Nat
  | [b0, b1] => some (b0 ||| (b1 <<< 8))
  | _ => none

/-- `u32::from_le_bytes(slice.try_into().unwrap())`: `none` models the panic
of `unwrap` when the slice does not hold exactly 4 bytes. -/
def u32_from_le_bytes : List Nat → Option Nat
  | [b0, b1, b2, b3] => some (b0 ||| (b1 <<< 8) ||| (b2 <<< 16) ||| (b3 <<< 24))
  | _ => none

/-- The FAT12 table decode loop of `FatPartition::from_partition_image`
(fat.rs lines 87-101): step the byte index by 3, read 3 bytes with no bounds
guard, and emit the two packed 12-bit entries.  A final group of fewer than 3
bytes makes the unguarded `fat_table_bytes[i + 1]`/`[i + 2]` index past the
end of the buffer (`none` models that panic). -/
def decode_fat12_table : List Nat → Option (List Nat)
  | [] => some []
  | b0 :: b1 :: b2 :: rest =>
    let first := b0 ||| ((b1 &&& 0x0f) <<< 8)
    let second := ((b1 &&& 0xf0) >>> 4) ||| (b2 <<< 4)
    (decode_fat12_table rest).map fun tail => first :: second :: tail
  | _ => none

/-- The FAT16 table decode loop (fat.rs lines 102-110): consecutive 2-byte
little-endian entries. -/
def decode_fat16_table : List Nat → Option (List Nat)
  | [] => some []
  | b0 :: b1 :: rest =>
    match u16_from_le_bytes [b0, b1] with
    | none => none
    | some v => (decode_fat16_table rest).map fun tail => v :: tail
  | _ => none

/-- The FAT32 table decode loop (fat.rs lines 111-119): the byte index steps
by 4, but each iteration slices only `fat_table_bytes[i..i + 2]` and feeds the
2-byte slice to `u32::from_le_bytes(...try_into().unwrap())`, whose conversion
to a 4-byte array fails — `none` models that unwrap panic (and the slice
running past the end when fewer than 2 bytes remain). -/
def decode_fat32_table : List Nat → Option (List Nat)
  | [] => some []
  | b0 :: b1 :: _ :: _ :: rest =>
    match u32_from_le_bytes [b0, b1] with
    | none => none
    | some v => (decode_fat32_table rest).map fun tail => v :: tail
  | [b0, b1] =>
    match u32_from_le_bytes [b0, b1] with
    | none => none
    | some v => some [v]
  | [b0, b1, _] =>
    match u32_from_le_bytes [b0, b1] with
    | none => none
    | some v => some [v]
  | [_] => none

/-- The width dispatch of the FAT table decode (fat.rs lines 86-120). -/
def decode_fat_table (fat_type : FatType) (bytes : List Nat) : Option (List Nat) :=
  match fat_type with
  | FatType.Fat12 => decode_fat12_table bytes
  | FatType.Fat16 => decode_fat16_table bytes
  | FatType.Fat32 => decode_fat32_table bytes

/-- The loop-exit test of `FatPartition::get_directory_at_cluster` (fat.rs
lines 170-175), applied to the value looked up in FAT table copy 0. -/
def next_cluster_ends_chain (fat_type : FatType) (cluster : Nat) : Bool :=
  cluster == 0 || cluster == 1
    || (fat_type == FatType.Fat12 && cluster ≥ 0xff8)
    || (fat_type == FatType.Fat16 && cluster ≥ 0xfff8)
    || (fat_type == FatType.Fat32 && cluster &&& 0x0fffffff ≥ 0x0ffffff8)

/-- `self.fat_tables[0][cluster as usize]` (fat.rs line 169): the next-cluster
lookup in table copy 0; `none` models the out-of-bounds indexing panic. -/
def fat_chain_step (fat_tables : List (List Nat)) (cluster : Nat) : Option Nat := do
  let table0 ← fat_tables[0]?
  table0[cluster]?

/-- The cluster-chain loop of `get_directory_at_cluster` (fat.rs lines
154-178) reduced to the sequence of clusters it visits: each iteration reads
the current cluster (each visited cluster contributes its decoded 32-byte
records, modelled separately by `FatDirectoryEntry.from_data`), then looks up
the next cluster in FAT table copy 0 and either stops or continues there.
`fuel` bounds the iteration count, which the source leaves unbounded; `none`
models both fuel exhaustion and the lookup's indexing panic. -/
def directory_cluster_chain (fat_type : FatType) (fat_tables : List (List Nat)) :
    Nat → Nat → Option (List Nat)
  | 0, _ => none
  | fuel + 1, cluster => do
    let next ← fat_chain_step fat_tables cluster
    if next_cluster_ends_chain fat_type next then
      some [cluster]
    else
      (directory_cluster_chain fat_type fat_tables fuel next).map fun tail => cluster :: tail

/-- Outcome of a Rust function returning `Result` whose body can also panic:
`ok`/`err` mirror `Ok`/`Err(ImageError)`, and `panicked` marks the paths on
which the Rust code panics (integer underflow, division by zero) and so never
produces a value. -/
inductive RunOutcome (α : Type) where
  | ok (value : α)
  | err (e : ImageError)
  | panicked
deriving DecidableEq, Repr

/-- FAT16 extension record (fat.rs, `Fat16BootExtra`). -/
structure Fat16BootExtra where
  logical_drive_number : Nat
  flags : Nat
  extended_signature : Nat
  serial_number : Option Nat
  volume_label : Option (List Nat)
  file_system_type : Option (List Nat)
deriving DecidableEq, Repr, Inhabited

/-- FAT32 extension record (fat.rs, `Fat32BootExtra`). -/
structure Fat32BootExtra where
  mirror_flags : Nat
  filesystem_version : Nat
  root_directory_cluster : Nat
  fsinfo_sector : Nat
  backup_boot_sector : Nat
  reserved : List Nat
  logical_drive_number : Nat
  reserved2 : Nat
  extended_signature : Nat
  serial_number : Option Nat
  volume_label : Option (List Nat)
  file_system_type : Option (List Nat)
deriving DecidableEq, Repr, Inhabited

/-- The type-tagged extension variant (fat.rs, `FatBootSectorExtra`);
`Fat12BootExtra` has no fields, so its variant is nullary here. -/
inductive FatBootSectorExtra where
  | Fat12
  | Fat16 (extra : Fat16BootExtra)
  | Fat32 (extra : Fat32BootExtra)
deriving DecidableEq, Repr, Inhabited

/-- The width tag an extension variant carries (the match in
`FatPartition::from_partition_image`, fat.rs lines 68-72). -/
def FatBootSectorExtra.tag : FatBootSectorExtra → FatType
  | FatBootSectorExtra.Fat12 => FatType.Fat12
  | FatBootSectorExtra.Fat16 _ => FatType.Fat16
  | FatBootSectorExtra.Fat32 _ => FatType.Fat32

/-- A decoded FAT boot sector (fat.rs, `FatBootSector`). -/
structure FatBootSector where
  jump_instruction : List Nat
  oem_name : List Nat
  bytes_per_sector : Nat
  sectors_per_cluster : Nat
  reserved_sectors : Nat
  number_of_fats : Nat
  root_directory_entries : Nat
  sectors_in_filesystem : Nat
  media_descriptor : Nat
  sectors_per_fat : Nat
  sectors_per_track : Nat
  number_of_heads : Nat
  hidden_sectors : Nat
  signature : List Nat
  extra : FatBootSectorExtra
deriving DecidableEq, Repr, Inhabited

/-- `FatBootSector::from_partition_image` (fat.rs lines 204-343) on the
512-byte sector read at the partition's start: check the 0x55AA signature,
extract the BIOS Parameter Block with the zero-means-use-32-bit-field
substitutions for the total sector count and sectors per FAT, compute
`data_sectors` and `data_clusters` with u32 arithmetic (`panicked` models the
Rust panics: subtraction underflow and division by a zero
`bytes_per_sector`/`sectors_per_cluster`), and classify the volume into the
FAT12/FAT16/FAT32 extension variant by the cluster-count thresholds. -/
def FatBootSector.from_partition_image (data : Nat → Nat) : RunOutcome FatBootSector :=
  let signature := [data 510, data 511]
  if signature ≠ [0x55, 0xaa] then
    RunOutcome.err (ImageError.InvalidSignature signature)
  else
    let bytes_per_sector := le16 data 0x0b
    let sectors_per_cluster := data 0x0d
    let reserved_sectors := le16 data 0x0e
    let number_of_fats := data 0x10
    let root_directory_entries := le16 data 0x11
    let sectors_in_filesystem :=
      if le16 data 0x13 = 0 then le32 data 0x20 else le16 data 0x13
    let sectors_per_fat :=
      if le16 data 0x16 = 0 then le32 data 0x24 else le16 data 0x16
    if bytes_per_sector = 0 then
      RunOutcome.panicked
    else
      let root_directory_sectors := root_directory_entries * 32 / bytes_per_sector
      if sectors_in_filesystem <
          reserved_sectors + number_of_fats * sectors_per_fat + root_directory_sectors then
        RunOutcome.panicked
      else
        let data_sectors := sectors_in_filesystem - reserved_sectors
          - number_of_fats * sectors_per_fat - root_directory_sectors
        if sectors_per_cluster = 0 then
          RunOutcome.panicked
        else
          let data_clusters := data_sectors / sectors_per_cluster
          let extra :=
            if data_clusters < 4085 then
              FatBootSectorExtra.Fat12
            else if 4085 ≤ data_clusters ∧ data_clusters < 65525 then
              let extended_signature := data 0x26
              FatBootSectorExtra.Fat16
                { logical_drive_number := data 0x24
                  flags := data 0x25
                  extended_signature := extended_signature
                  serial_number :=
                    if extended_signature = 0x28 ∨ extended_signature = 0x29 then
                      some (le32 data 39)
                    else none
                  volume_label :=
                    if extended_signature = 0x29 then some (bytesAt data 0x2b 11) else none
                  file_system_type :=
                    if extended_signature = 0x29 then some (bytesAt data 0x36 8) else none }
            else
              let extended_signature := data 0x37
              FatBootSectorExtra.Fat32
                { mirror_flags := le16 data 0x28
                  filesystem_version := le16 data 0x2a
                  root_directory_cluster := le32 data 0x2c
                  fsinfo_sector := le16 data 0x30
                  backup_boot_sector := le16 data 0x32
                  reserved := bytesAt data 0x34 12
                  logical_drive_number := data 0x40
                  reserved2 := data 0x41
                  extended_signature := extended_signature
                  serial_number :=
                    if extended_signature = 0x28 ∨ extended_signature = 0x29 then
                      some (le32 data 67)
                    else none
                  volume_label :=
                    if extended_signature = 0x29 then some (bytesAt data 71 11) else none
                  file_system_type :=
                    if extended_signature = 0x29 then some (bytesAt data 82 8) else none }
          RunOutcome.ok
            { jump_instruction := [data 0, data 1, data 2]
              oem_name := bytesAt data 0x03 8
              bytes_per_sector := bytes_per_sector
              sectors_per_cluster := sectors_per_cluster
              reserved_sectors := reserved_sectors
              number_of_fats := number_of_fats
              root_directory_entries := root_directory_entries
              sectors_in_filesystem := sectors_in_filesystem
              media_descriptor := data 0x15
              sectors_per_fat := sectors_per_fat
              sectors_per_track := le16 data 0x18
              number_of_heads := le16 data 0x1a
              hidden_sectors := le32 data 0x1c
              signature := signature
              extra := extra }

/-- A calendar date, modelling chrono's `NaiveDate` as far as the decoder
uses it. -/
structure NaiveDate where
  year : Nat
  month : Nat
  day : Nat
deriving DecidableEq, Repr

/-- Leap-year rule of the proleptic Gregorian calendar. -/
def is_leap_year (year : Nat) : Bool :=
  year % 4 == 0 && (year % 100 != 0 || year % 400 == 0)

def days_in_month (year month : Nat) : Nat :=
  if month = 2 then (if is_leap_year year then 29 else 28)
  else if month = 4 ∨ month = 6 ∨ month = 9 ∨ month = 11 then 30
  else 31

/-- Modelled from chrono: `NaiveDate::from_ymd_opt` is `Some` exactly on valid
calendar dates. -/
def NaiveDate.from_ymd_opt (year month day : Nat) : Option NaiveDate :=
  if 1 ≤ month ∧ month ≤ 12 ∧ 1 ≤ day ∧ day ≤ days_in_month year month then
    some ⟨year, month, day⟩
  else none

/-- A time of day with millisecond precision, modelling chrono's `NaiveTime`
as far as the decoder uses it. -/
structure NaiveTime where
  hour : Nat
  minute : Nat
  second : Nat
  millisecond : Nat
deriving DecidableEq, Repr

/-- Modelled from chrono: `NaiveTime::from_hms_milli_opt` accepts hours below
24, minutes and seconds below 60, and milliseconds below 2000 (values of 1000
and above encode a leap second). -/
def NaiveTime.from_hms_milli_opt (hour minute second millisecond : Nat) : Option NaiveTime :=
  if hour < 24 ∧ minute < 60 ∧ second < 60 ∧ millisecond < 2000 then
    some ⟨hour, minute, second, millisecond⟩
  else none

/-- Modelled from chrono: `NaiveTime::from_hms_opt`. -/
def NaiveTime.from_hms_opt (hour minute second : Nat) : Option NaiveTime :=
  if hour < 24 ∧ minute < 60 ∧ second < 60 then some ⟨hour, minute, second, 0⟩ else none

structure NaiveDateTime where
  date : NaiveDate
  time : NaiveTime
deriving DecidableEq, Repr

/-- `fat_date_to_chrono_naive_date` (fat.rs lines 668-675). -/
def fat_date_to_chrono_naive_date (b0 b1 : Nat) : Option NaiveDate :=
  let ymd := b0 ||| (b1 <<< 8)
  NaiveDate.from_ymd_opt (((ymd &&& 0xfe00) >>> 9) + 1980) ((ymd &&& 0x01e0) >>> 5)
    (ymd &&& 0x001f)

/-- `fat_fine_time_to_chrono_naive_time` (fat.rs lines 677-687). -/
def fat_fine_time_to_chrono_naive_time (b0 b1 b2 : Nat) : Option NaiveTime :=
  let centi_millis := b0
  let hms := b1 ||| (b2 <<< 8)
  NaiveTime.from_hms_milli_opt ((hms &&& 0xf800) >>> 11) ((hms &&& 0x07e0) >>> 5)
    (centi_millis / 100) (10 * (centi_millis % 100))

/-- `fat_time_to_chrono_naive_time` (fat.rs lines 689-696). -/
def fat_time_to_chrono_naive_time (b0 b1 : Nat) : Option NaiveTime :=
  let hms := b0 ||| (b1 <<< 8)
  NaiveTime.from_hms_opt ((hms &&& 0xf800) >>> 11) ((hms &&& 0x07e0) >>> 5)
    ((hms &&& 0x001f) * 2)

/-- Combine an optional date and optional time as `from_data` does: a
timestamp exists only when both parse. -/
def combine_date_time (date : Option NaiveDate) (time : Option NaiveTime) :
    Option NaiveDateTime :=
  match date, time with
  | some d, some t => some ⟨d, t⟩
  | _, _ => none

/-- A decoded 32-byte FAT directory entry (fat.rs, `FatDirectoryEntry`). -/
structure FatDirectoryEntry where
  filename : List Nat
  extension : List Nat
  attributes : Nat
  reserved : Nat
  creation_timestamp : Option NaiveDateTime
  last_access_date : Option NaiveDate
  extended_attributes_cluster : Option Nat
  last_modification_timestamp : Option NaiveDateTime
  first_cluster : Nat
  file_size : Nat
deriving DecidableEq, Repr

/-- `FatDirectoryEntry::from_data` (fat.rs lines 537-594) on a 32-byte
window: name and extension bytes, attributes, optional timestamps, and —
depending on the FAT width — either the extended-attributes cluster
(FAT12/16) or the high 16 bits of the first cluster (FAT32). -/
def FatDirectoryEntry.from_data (data : Nat → Nat) (fat_type : FatType) :
    FatDirectoryEntry :=
  let eaAndHigh : Option Nat × Nat :=
    match fat_type with
    | FatType.Fat12 => (some (le16 data 20), 0)
    | FatType.Fat16 => (some (le16 data 20), 0)
    | FatType.Fat32 => (none, (le16 data 20) <<< 16)
  { filename := bytesAt data 0 8
    extension := bytesAt data 8 3
    attributes := data 11
    reserved := data 12
    creation_timestamp :=
      combine_date_time (fat_date_to_chrono_naive_date (data 16) (data 17))
        (fat_fine_time_to_chrono_naive_time (data 13) (data 14) (data 15))
    last_access_date := fat_date_to_chrono_naive_date (data 18) (data 19)
    extended_attributes_cluster := eaAndHigh.1
    last_modification_timestamp :=
      combine_date_time (fat_date_to_chrono_naive_date (data 24) (data 25))
        (fat_time_to_chrono_naive_time (data 22) (data 23))
    first_cluster := le16 data 26 ||| eaAndHigh.2
    file_size := le32 data 28 }

/-- `FatDirectoryEntry::is_valid` (fat.rs lines 613-615). -/
def FatDirectoryEntry.is_valid (e : FatDirectoryEntry) : Bool :=
  e.filename.getD 0 0 != 0 && e.extension.getD 0 0 != 0

/-- `FatDirectoryEntry::get_filename` (fat.rs lines 628-655) up to the point
where the collected bytes are handed to the code-page-437 string conversion
and joined with the extension: the byte sequence of the displayed base name.
0x3f is the byte of the character the deleted marker is displayed as. -/
def FatDirectoryEntry.get_filename_bytes (e : FatDirectoryEntry) : Option (List Nat) :=
  if e.filename.getD 0 0 = 0 then
    none
  else if e.filename.getD 0 0 = 0x05 then
    some (0xe5 :: (e.filename.drop 1).take 7)
  else if e.filename.getD 0 0 = 0xe5 then
    some (0x3f :: (e.filename.drop 1).take 7)
  else
    some (e.filename.take 8)

/-- A 16-byte GUID as `Uuid::from_fields` assembles it: three integer fields
plus the trailing 8 raw bytes. -/
structure Uuid where
  d1 : Nat
  d2 : Nat
  d3 : Nat
  d4 : List Nat
deriving DecidableEq, Repr, Inhabited

/-- `read_mixed_endian_uuid` (gpt.rs lines 266-273): the first three fields
little-endian, the last 8 bytes kept in order. -/
def read_mixed_endian_uuid (data : Nat → Nat) : Uuid where
  d1 := le32 data 0
  d2 := le16 data 4
  d3 := le16 data 6
  d4 := bytesAt data 8 8

def GPT_HEADER_SIGNATURE : List Nat := [0x45, 0x46, 0x49, 0x20, 0x50, 0x41, 0x52, 0x54]

def GPT_REVISION_1_0 : Nat := 0x00010000

def GPT_HEADER_1_0_SIZE : Nat := 92

/-- A decoded GPT header (gpt.rs, `GptHeader`). -/
structure GptHeader where
  signature : List Nat
  revision : Nat
  header_size : Nat
  crc32 : Nat
  reserved1 : List Nat
  current_lba : Nat
  backup_lba : Nat
  first_usable_lba : Nat
  last_usable_lba : Nat
  disk_guid : Uuid
  partition_table_lba : Nat
  partition_count : Nat
  partition_entry_size : Nat
  partition_entry_array_crc32 : Nat
deriving DecidableEq, Repr

/-- `GptHeader::new` (gpt.rs lines 36-87) on the 92-byte window read at the
given offset: verify the signature, then the revision, then the declared
header size, failing with a distinct `ImageError` kind for each; on success
decode every remaining field (the two CRC32 fields are stored but never
checked). -/
def GptHeader.new (hdr : Nat → Nat) : Except ImageError GptHeader :=
  let signature := bytesAt hdr 0 8
  if signature ≠ GPT_HEADER_SIGNATURE then
    Except.error (ImageError.InvalidGptHeaderSignature signature)
  else
    let revision := le32 hdr 8
    if revision < GPT_REVISION_1_0 then
      Except.error (ImageError.InvalidGptHeaderRevision revision)
    else
      let header_size := le32 hdr 12
      if header_size ≠ GPT_HEADER_1_0_SIZE then
        Except.error (ImageError.InvalidGptHeaderSize header_size)
      else
        Except.ok
          { signature := signature
            revision := revision
            header_size := header_size
            crc32 := le32 hdr 16
            reserved1 := bytesAt hdr 20 4
            current_lba := le64 hdr 24
            backup_lba := le64 hdr 32
            first_usable_lba := le64 hdr 40
            last_usable_lba := le64 hdr 48
            disk_guid := read_mixed_endian_uuid fun i => hdr (56 + i)
            partition_table_lba := le64 hdr 72
            partition_count := le32 hdr 80
            partition_entry_size := le32 hdr 84
            partition_entry_array_crc32 := le32 hdr 88 }

/-- An error surfaced while probing a partition for a FAT filesystem: either
a decoder `ImageError` (recoverable by downcast in main.rs), or any other
boxed error (I/O and the like). -/
inductive ProbeError where
  | image (e : ImageError)
  | other
deriving DecidableEq, Repr

/-- The FAT-probe error policy of `print_mbr_partition_table` (main.rs lines
139-145) and `print_gpt_partition_table` (main.rs lines 216-222): a
successful probe yields the FAT volume, a probe failure that downcasts to
`ImageError::InvalidSignature` is swallowed (`ok none`: not a FAT volume,
keep going), and every other failure is returned to the caller as fatal. -/
def handle_fat_probe {α : Type} (r : Except ProbeError α) : Except ProbeError (Option α) :=
  match r with
  | Except.ok fp => Except.ok (some fp)
  | Except.error (ProbeError.image (ImageError.InvalidSignature _)) => Except.ok none
  | Except.error e => Except.error e

/-! ## Concrete inputs used by counterexamples and witnesses -/

/-- A 512-byte image of zero bytes: its boot-sector signature field is
0x00 0x00, not the boot-sector magic. -/
def c1BadDisk : Disk where
  size := 512
  byte := fun _ => 0

/-- A 1536-byte image holding a 2-hop extended chain: the MBR at offset 0 has
one extended entry (type 0x05, LBA start 1), the EBR at offset 512 again has
one extended entry (type 0x05, LBA start 1), and the boot sector at offset
1024 has no extended entries. -/
def c2Disk : Disk where
  size := 1536
  byte := fun i =>
    if i = 450 then 0x05
    else if i = 454 then 1
    else if i = 510 then 0x55
    else if i = 511 then 0xaa
    else if i = 962 then 0x05
    else if i = 966 then 1
    else if i = 1022 then 0x55
    else if i = 1023 then 0xaa
    else if i = 1534 then 0x55
    else if i = 1535 then 0xaa
    else 0

/-- The extended entry of `c2Disk`'s MBR. -/
def c2entry0 : PartitionEntry :=
  PartitionEntry.new fun i => c2Disk.byte (446 + i)

/-- The boot sector `c2Disk` holds at offset 512 (the first EBR). -/
def c2ebr1 : BootSector :=
  match BootSector.from_disk_image c2Disk 512 with
  | some bs => bs
  | none => { partitions := [], signature := [] }

/-! ## Claims -/

/-- Claim C1, counterexample: the boot-sector decode does NOT fail on a bad
signature — on an all-zero 512-byte image, `BootSector::from_disk_image`
returns a decoded boot sector whose stored signature is 0x00 0x00, which is
not the boot-sector magic. -/
theorem c1_counterexample :
    ((BootSector.from_disk_image c1BadDisk 0).map fun bs => bs.signature) = some [0, 0]
    ∧ [(0 : Nat), 0] ≠ [0x55, 0xaa] := by
  constructor
  · decide
  · decide

/-- Claim C1 (amended): the MBR/EBR boot-sector decode reads exactly 512
bytes (it succeeds iff the 512-byte window fits in the image) and always
returns the decoded boot sector — 4 partition entries from offset 446 plus
the 2 signature bytes at offset 510 stored unchecked.  The bad-signature
failure happens only in the top-level runner, which verifies the outermost
MBR's stored signature against 0x55 0xAA; sectors the extended-chain walk
visits are decoded without any signature check. -/
theorem c1_boot_sector_decode :
    (∀ (disk : Disk) (pos : Nat),
      (BootSector.from_disk_image disk pos).isSome = true ↔ pos + 512 ≤ disk.size)
    ∧ (∀ (disk : Disk) (pos : Nat) (bs : BootSector),
        BootSector.from_disk_image disk pos = some bs →
          bs.signature = [disk.byte (pos + 510), disk.byte (pos + 511)]
          ∧ bs.partitions =
              [PartitionEntry.new fun i => disk.byte (pos + (446 + i)),
               PartitionEntry.new fun i => disk.byte (pos + (446 + 16 + i)),
               PartitionEntry.new fun i => disk.byte (pos + (446 + 2 * 16 + i)),
               PartitionEntry.new fun i => disk.byte (pos + (446 + 3 * 16 + i))])
    ∧ (∀ bs : BootSector, run_check_signature bs = Except.ok () ↔ bs.signature = [0x55, 0xaa])
    ∧ (∀ bs : BootSector, bs.signature ≠ [0x55, 0xaa] →
        run_check_signature bs = Except.error (ImageError.InvalidSignature bs.signature)) := by
  refine ⟨fun disk pos => ?_, fun disk pos bs h => ?_, fun bs => ?_, fun bs h => ?_⟩
  · by_cases h : pos + 512 ≤ disk.size <;> simp [BootSector.from_disk_image, h]
  · by_cases hsz : pos + 512 ≤ disk.size
    · simp only [BootSector.from_disk_image, if_pos hsz, Option.some.injEq] at h
      subst h; exact ⟨rfl, rfl⟩
    · simp [BootSector.from_disk_image, hsz] at h
  · by_cases h : bs.signature = [0x55, 0xaa] <;> simp [run_check_signature, h]
  · simp [run_check_signature, h]

/-- Claim C1 witness: the runner's check rejects a boot sector whose stored
signature is 0x00 0x00 with the bad-signature error. -/
theorem c1_boot_sector_decode_witness :
    run_check_signature { partitions := [], signature := [0, 0] } =
      Except.error (ImageError.InvalidSignature [0, 0]) :=
  c1_boot_sector_decode.2.2.2 { partitions := [], signature := [0, 0] } (by decide)

/-- Claim C2, counterexample: on `c2Disk` the extended-chain walk visits boot
sectors at offsets 512 and 1024 — the second hop resolves its LBA (1) against
the first EBR's own position (512), giving 1024, not against the outermost
MBR's base offset 0, which would give 0 + 1 × 512 = 512. -/
theorem c2_counterexample :
    ((BootSector.from_disk_image c2Disk 0).map fun mbr => walk_extended c2Disk 3 mbr 0) =
      some (Except.ok [512, 1024])
    ∧ (1024 : Nat) ≠ 0 + 1 * 512 := by
  constructor
  · decide
  · decide

/-- Claim C2 (amended): the next boot sector in the chain is read at the
absolute offset equal to the IMMEDIATELY PRECEDING boot sector's start
position plus the extended entry's `lba_start × 512` (so only the first hop
coincides with the outermost MBR's base plus `lba_start × 512`; later hops
are computed from the previous EBR's own position, which the walk passes down
as the new base). -/
theorem c2_extended_chain_offsets (disk : Disk) (e : PartitionEntry) (pos : Nat)
    (bs : BootSector) (p : Nat)
    (h : e.get_extended_boot_sector disk pos = Except.ok (bs, p)) :
    p = pos + e.lba_start * 512 := by
  simp only [PartitionEntry.get_extended_boot_sector] at h
  split at h
  · exact absurd h (by simp)
  · split at h
    · exact absurd h (by simp)
    · split at h
      · exact absurd h (by simp)
      · rename_i heq
        injection h with h2
        injection h2 with hbs hp
        exact hp.symm

/-- Claim C2 witness: on `c2Disk`, the hop taken from the MBR's extended
entry at base position 0 resolves to offset `0 + lba_start × 512`. -/
theorem c2_extended_chain_offsets_witness :
    (512 : Nat) = 0 + c2entry0.lba_start * 512 :=
  c2_extended_chain_offsets c2Disk c2entry0 0 c2ebr1 512 (by decide)

/-- Claim C3: the FAT12 and FAT16 table decodes produce the claimed values
(the 3-byte group 0x23 0x61 0x45 yields the 12-bit pair 0x123, 0x456; FAT16
entries are consecutive 2-byte little-endian values), but the FAT32 decode
never produces the claimed 4-byte little-endian values: its loop slices only
2 bytes per entry and the conversion of that slice to a 4-byte array panics
on `unwrap`, so on the well-formed one-entry table 0xf8 0xff 0xff 0x0f the
decode produces no value instead of [0x0ffffff8]. -/
theorem c3_fat_table_decode_shapes :
    decode_fat_table FatType.Fat12 [0x23, 0x61, 0x45] = some [0x123, 0x456]
    ∧ decode_fat_table FatType.Fat16 [0x34, 0x12, 0x78, 0x56] = some [0x1234, 0x5678]
    ∧ decode_fat_table FatType.Fat32 [0xf8, 0xff, 0xff, 0x0f] = none := by
  refine ⟨by decide, by decide, ?_⟩
  decide

/-- The all-zero 512-byte sector with a valid 0x55AA boot signature: every
BIOS Parameter Block field, `bytes_per_sector` included, is zero. -/
def c9Sector : Nat → Nat := fun i =>
  if i = 510 then 0x55 else if i = 511 then 0xaa else 0

/-- Claim C9: FAT boot-sector decoding is not total on signature-valid
sectors — whenever the signature check passes but the 16-bit
`bytes_per_sector` field is zero, the unguarded division in the
`data_sectors` computation divides by zero, so the decode panics instead of
returning an error value. -/
theorem c9_fat_boot_decode_not_total (data : Nat → Nat)
    (h510 : data 510 = 0x55) (h511 : data 511 = 0xaa) (hbps : le16 data 0x0b = 0) :
    FatBootSector.from_partition_image data = RunOutcome.panicked := by
  simp [FatBootSector.from_partition_image, h510, h511, hbps]

/-- Claim C9 witness: the concrete all-zero sector with a valid signature
makes the decode panic. -/
theorem c9_fat_boot_decode_not_total_witness :
    FatBootSector.from_partition_image c9Sector = RunOutcome.panicked :=
  c9_fat_boot_decode_not_total c9Sector (by decide) (by decide) (by decide)

/-- The FAT12 decode loop produces a value exactly on buffers whose length is
a multiple of 3. -/
theorem decode_fat12_table_isSome_iff : ∀ bytes : List Nat,
    (decode_fat12_table bytes).isSome = true ↔ bytes.length % 3 = 0
  | [] => by simp [decode_fat12_table]
  | [_] => by simp [decode_fat12_table]
  | [_, _] => by simp [decode_fat12_table]
  | b0 :: b1 :: b2 :: rest => by
    have ih := decode_fat12_table_isSome_iff rest
    simp only [decode_fat12_table, List.length_cons]
    cases hd : decode_fat12_table rest with
    | none =>
      rw [hd] at ih
      simp only [Option.isSome_none, Bool.false_eq_true, false_iff] at ih
      simp only [Option.map_none', Option.isSome_none, Bool.false_eq_true, false_iff]
      omega
    | some t =>
      rw [hd] at ih
      simp only [Option.isSome_some, true_iff] at ih
      simp only [Option.map_some', Option.isSome_some, true_iff]
      omega

/-- Claim C10: FAT12 table decoding is total exactly when the table byte size
`sectors_per_fat × bytes_per_sector` is a multiple of 3; otherwise the final
3-byte group of the decode loop indexes past the end of the buffer and the
decode produces no value. -/
theorem c10_fat12_decode_total_iff (sectors_per_fat bytes_per_sector : Nat)
    (bytes : List Nat) (h : bytes.length = sectors_per_fat * bytes_per_sector) :
    (decode_fat12_table bytes).isSome = true ↔ sectors_per_fat * bytes_per_sector % 3 = 0 := by
  rw [← h]
  exact decode_fat12_table_isSome_iff bytes

/-- Claim C10 witness: a 4-byte FAT12 table (1 sector of 4 bytes) has size
not a multiple of 3, and its decode produces no value. -/
theorem c10_fat12_decode_total_iff_witness :
    ((decode_fat12_table [0, 0, 0, 0]).isSome = true ↔ 1 * 4 % 3 = 0) :=
  c10_fat12_decode_total_iff 1 4 [0, 0, 0, 0] rfl

/-- Claim C5: after a visited cluster, the directory traversal looks up
`fat_tables[0][cluster]` and stops exactly when that next-cluster value is 0,
1, or at or above the width-specific end-of-chain threshold (0xFF8 for FAT12,
0xFFF8 for FAT16, 0x0FFFFFF8 after masking to 28 bits for FAT32); for any
other value it continues the walk at that cluster. -/
theorem c5_chain_stop_iff (ft : FatType) (tables : List (List Nat))
    (fuel cluster next : Nat) (h : fat_chain_step tables cluster = some next) :
    directory_cluster_chain ft tables (fuel + 1) cluster =
      if next = 0 ∨ next = 1 ∨ (ft = FatType.Fat12 ∧ 0xff8 ≤ next)
          ∨ (ft = FatType.Fat16 ∧ 0xfff8 ≤ next)
          ∨ (ft = FatType.Fat32 ∧ 0x0ffffff8 ≤ next % 2 ^ 28) then
        some [cluster]
      else
        (directory_cluster_chain ft tables fuel next).map fun tail => cluster :: tail := by
  have hmask : next &&& 0x0fffffff = next % 2 ^ 28 := by
    have h28 : (0x0fffffff : Nat) = 2 ^ 28 - 1 := by norm_num
    rw [h28, Nat.and_pow_two_sub_one_eq_mod]
  have hcond : next_cluster_ends_chain ft next = true ↔
      (next = 0 ∨ next = 1 ∨ (ft = FatType.Fat12 ∧ 0xff8 ≤ next)
        ∨ (ft = FatType.Fat16 ∧ 0xfff8 ≤ next)
        ∨ (ft = FatType.Fat32 ∧ 0x0ffffff8 ≤ next % 2 ^ 28)) := by
    cases ft <;>
      simp [next_cluster_ends_chain, hmask, ge_iff_le, Bool.or_eq_true, beq_iff_eq,
        decide_eq_true_eq] <;>
      tauto
  by_cases hp : next = 0 ∨ next = 1 ∨ (ft = FatType.Fat12 ∧ 0xff8 ≤ next)
      ∨ (ft = FatType.Fat16 ∧ 0xfff8 ≤ next)
      ∨ (ft = FatType.Fat32 ∧ 0x0ffffff8 ≤ next % 2 ^ 28)
  · rw [if_pos hp]
    have hb : next_cluster_ends_chain ft next = true := hcond.mpr hp
    simp [directory_cluster_chain, h, hb]
  · rw [if_neg hp]
    have hb : next_cluster_ends_chain ft next = false := by
      cases hb2 : next_cluster_ends_chain ft next
      · rfl
      · exact absurd (hcond.mp hb2) hp
    simp [directory_cluster_chain, h, hb]

/-- Claim C5 witness: with FAT16 tables whose copy 0 maps cluster 0 to
0xFFF8, the walk starting at cluster 0 stops immediately after it. -/
theorem c5_chain_stop_iff_witness :
    directory_cluster_chain FatType.Fat16 [[0xfff8]] 1 0 = some [0] := by
  have h := c5_chain_stop_iff FatType.Fat16 [[0xfff8]] 0 0 0xfff8 (by decide)
  rw [h]
  decide

/-- The width tag of a FAT boot-sector decode outcome, when it decoded. -/
def RunOutcome.fat_type_tag : RunOutcome FatBootSector → Option FatType
  | RunOutcome.ok bs => some bs.extra.tag
  | _ => none

/-- The data-cluster count exactly as claim C4 states it: CEILING division
for the root-directory sectors, with the zero-means-use-32-bit-field
substitutions.  Written from the claim's words, for comparison against the
decoder. -/
def ceil_data_clusters (data : Nat → Nat) : Nat :=
  ((if le16 data 0x13 = 0 then le32 data 0x20 else le16 data 0x13)
      - le16 data 0x0e
      - data 0x10 * (if le16 data 0x16 = 0 then le32 data 0x24 else le16 data 0x16)
      - (le16 data 0x11 * 32 + le16 data 0x0b - 1) / le16 data 0x0b)
    / data 0x0d

/-- The data-cluster count the decoder actually computes: FLOOR division for
the root-directory sectors (`root_directory_entries * 32 / bytes_per_sector`
in fat.rs line 251), with the same substitutions. -/
def floor_data_clusters (data : Nat → Nat) : Nat :=
  ((if le16 data 0x13 = 0 then le32 data 0x20 else le16 data 0x13)
      - le16 data 0x0e
      - data 0x10 * (if le16 data 0x16 = 0 then le32 data 0x24 else le16 data 0x16)
      - le16 data 0x11 * 32 / le16 data 0x0b)
    / data 0x0d

/-- A valid-signature FAT sector with bytes_per_sector = 512,
sectors_per_cluster = 1, reserved_sectors = 1, 1 FAT of 12 sectors,
15 root-directory entries and 4098 total sectors: the decoder's floor
division gives 0 root-directory sectors and 4085 data clusters (FAT16), while
the claim's ceiling division gives 1 root-directory sector and 4084 data
clusters (which the claim classifies as FAT12). -/
def c4Sector : Nat → Nat := fun i =>
  if i = 0x0c then 2
  else if i = 0x0d then 1
  else if i = 0x0e then 1
  else if i = 0x10 then 1
  else if i = 0x11 then 15
  else if i = 0x13 then 0x02
  else if i = 0x14 then 0x10
  else if i = 0x16 then 12
  else if i = 510 then 0x55
  else if i = 511 then 0xaa
  else 0

/-- The FAT boot sector the decoder produces for `c4Sector`. -/
def c4BootSector : FatBootSector :=
  match FatBootSector.from_partition_image c4Sector with
  | RunOutcome.ok bs => bs
  | _ => default

/-- Claim C4, counterexample: on `c4Sector` the claim's ceiling-division
formula yields 4084 data clusters, below the 4085 threshold, so the claim
demands the FAT12 tag — but the decoder (which floors the root-directory
sector count) classifies the volume as FAT16. -/
theorem c4_counterexample :
    (FatBootSector.from_partition_image c4Sector).fat_type_tag = some FatType.Fat16
    ∧ ceil_data_clusters c4Sector = 4084
    ∧ ceil_data_clusters c4Sector < 4085 := by
  refine ⟨by decide, by decide, by decide⟩

/-- Claim C4 (amended): for every successfully decoded FAT boot sector the
variant tag follows the thresholds applied to
`data_clusters = (total_sectors − reserved_sectors − fat_count×sectors_per_fat
− root_entries×32 / bytes_per_sector) / sectors_per_cluster` with FLOOR
division for the root-directory sectors (and the zero-means-use-32-bit-field
substitutions): FAT12 iff data_clusters < 4085, FAT16 iff
4085 ≤ data_clusters < 65525, FAT32 otherwise. -/
theorem c4_fat_width_classification (data : Nat → Nat) (bs : FatBootSector)
    (h : FatBootSector.from_partition_image data = RunOutcome.ok bs) :
    (bs.extra.tag = FatType.Fat12 ↔ floor_data_clusters data < 4085)
    ∧ (bs.extra.tag = FatType.Fat16 ↔
        4085 ≤ floor_data_clusters data ∧ floor_data_clusters data < 65525)
    ∧ (bs.extra.tag = FatType.Fat32 ↔ 65525 ≤ floor_data_clusters data) := by
  have htag : bs.extra.tag =
      if floor_data_clusters data < 4085 then FatType.Fat12
      else if 4085 ≤ floor_data_clusters data ∧ floor_data_clusters data < 65525 then
        FatType.Fat16
      else FatType.Fat32 := by
    simp only [FatBootSector.from_partition_image] at h
    simp only [floor_data_clusters]
    set S := (if le16 data 0x13 = 0 then le32 data 0x20 else le16 data 0x13) with hS
    set F := (if le16 data 0x16 = 0 then le32 data 0x24 else le16 data 0x16) with hF
    by_cases hsig : [data 510, data 511] ≠ [0x55, 0xaa]
    · rw [if_pos hsig] at h
      exact RunOutcome.noConfusion h
    · rw [if_neg hsig] at h
      by_cases hbps : le16 data 0x0b = 0
      · rw [if_pos hbps] at h
        exact RunOutcome.noConfusion h
      · rw [if_neg hbps] at h
        by_cases hund : S < le16 data 0x0e + data 0x10 * F + le16 data 0x11 * 32 / le16 data 0x0b
        · rw [if_pos hund] at h
          exact RunOutcome.noConfusion h
        · rw [if_neg hund] at h
          by_cases hspc : data 0x0d = 0
          · rw [if_pos hspc] at h
            exact RunOutcome.noConfusion h
          · rw [if_neg hspc] at h
            injection h with hbs
            subst hbs
            set dc := (S - le16 data 0x0e - data 0x10 * F
              - le16 data 0x11 * 32 / le16 data 0x0b) / data 0x0d with hdc
            by_cases h1 : dc < 4085
            · rw [if_pos h1, if_pos h1]
              rfl
            · rw [if_neg h1, if_neg h1]
              by_cases h2 : 4085 ≤ dc ∧ dc < 65525
              · rw [if_pos h2, if_pos h2]
                rfl
              · rw [if_neg h2, if_neg h2]
                rfl
  refine ⟨?_, ?_, ?_⟩ <;> rw [htag] <;>
    by_cases h1 : floor_data_clusters data < 4085 <;>
    by_cases h2 : 4085 ≤ floor_data_clusters data ∧ floor_data_clusters data < 65525 <;>
    simp [h1, h2] <;> omega

/-- Claim C4 witness: `c4Sector` decodes successfully with 4085 floor-divided
data clusters, and the theorem classifies it as FAT16. -/
theorem c4_fat_width_classification_witness :
    c4BootSector.extra.tag = FatType.Fat16 :=
  (c4_fat_width_classification c4Sector c4BootSector (by decide)).2.1.mpr (by decide)

/-- Claim C6: GPT header decoding checks its three invariants in order, each
with its own error kind — a signature error iff bytes 0..8 are not
"EFI PART"; otherwise a revision error iff the 32-bit revision is below
0x00010000; otherwise a header-size error iff the 32-bit declared size is not
92 — and succeeds iff all three hold, with the two CRC32 fields stored from
the raw bytes but never validated. -/
theorem c6_gpt_header_validation (hdr : Nat → Nat) :
    (GptHeader.new hdr = Except.error (ImageError.InvalidGptHeaderSignature (bytesAt hdr 0 8))
      ↔ bytesAt hdr 0 8 ≠ GPT_HEADER_SIGNATURE)
    ∧ (bytesAt hdr 0 8 = GPT_HEADER_SIGNATURE →
        (GptHeader.new hdr = Except.error (ImageError.InvalidGptHeaderRevision (le32 hdr 8))
          ↔ le32 hdr 8 < GPT_REVISION_1_0))
    ∧ (bytesAt hdr 0 8 = GPT_HEADER_SIGNATURE → GPT_REVISION_1_0 ≤ le32 hdr 8 →
        (GptHeader.new hdr = Except.error (ImageError.InvalidGptHeaderSize (le32 hdr 12))
          ↔ le32 hdr 12 ≠ GPT_HEADER_1_0_SIZE))
    ∧ ((∃ g, GptHeader.new hdr = Except.ok g) ↔
        bytesAt hdr 0 8 = GPT_HEADER_SIGNATURE ∧ GPT_REVISION_1_0 ≤ le32 hdr 8
          ∧ le32 hdr 12 = GPT_HEADER_1_0_SIZE)
    ∧ (∀ g, GptHeader.new hdr = Except.ok g →
        g.crc32 = le32 hdr 16 ∧ g.partition_entry_array_crc32 = le32 hdr 88) := by
  by_cases hsig : bytesAt hdr 0 8 = GPT_HEADER_SIGNATURE
  · by_cases hrev : le32 hdr 8 < GPT_REVISION_1_0
    · refine ⟨?_, ?_, ?_, ?_, ?_⟩ <;>
        simp [GptHeader.new, hsig, hrev, not_lt.mp, le_of_not_lt]
    · by_cases hsize : le32 hdr 12 = GPT_HEADER_1_0_SIZE
      · refine ⟨?_, ?_, ?_, ?_, ?_⟩ <;>
          simp [GptHeader.new, hsig, hrev, hsize, le_of_not_lt]
      · refine ⟨?_, ?_, ?_, ?_, ?_⟩ <;>
          simp [GptHeader.new, hsig, hrev, hsize, le_of_not_lt]
  · refine ⟨?_, ?_, ?_, ?_, ?_⟩ <;> simp [GptHeader.new, hsig]

/-- A 92-byte GPT header window whose signature is "EFI PART" but whose
revision field is zero. -/
def c6BadRevisionHeader : Nat → Nat := fun i =>
  if i = 0 then 0x45 else if i = 1 then 0x46 else if i = 2 then 0x49
  else if i = 3 then 0x20 else if i = 4 then 0x50 else if i = 5 then 0x41
  else if i = 6 then 0x52 else if i = 7 then 0x54 else 0

/-- Claim C6 witness: a good-signature header with revision 0 fails with
exactly the revision error kind. -/
theorem c6_gpt_header_validation_witness :
    GptHeader.new c6BadRevisionHeader =
      Except.error (ImageError.InvalidGptHeaderRevision 0) :=
  ((c6_gpt_header_validation c6BadRevisionHeader).2.1 (by decide)).mpr (by decide)

/-- Claim C7: when a partition probed for a FAT filesystem fails to decode,
the caller swallows the failure and continues exactly when the error is the
signature-mismatch kind (the partition is just not a FAT volume); every other
probe error is propagated unchanged as fatal, and a successful probe is
passed through. -/
theorem c7_fat_probe_error_policy (α : Type) (e : ProbeError) :
    (@handle_fat_probe α (Except.error e) = Except.ok none ↔
      ∃ sig, e = ProbeError.image (ImageError.InvalidSignature sig))
    ∧ ((∀ sig, e ≠ ProbeError.image (ImageError.InvalidSignature sig)) →
        @handle_fat_probe α (Except.error e) = Except.error e)
    ∧ (∀ a : α, handle_fat_probe (Except.ok a) = Except.ok (some a)) := by
  refine ⟨?_, ?_, fun a => rfl⟩
  · cases e with
    | image ie => cases ie <;> simp [handle_fat_probe]
    | other => simp [handle_fat_probe]
  · intro hne
    cases e with
    | image ie =>
      cases ie <;> simp [handle_fat_probe]
      rename_i sig
      exact absurd rfl (hne sig)
    | other => rfl

/-- Claim C7 witness: a signature-mismatch probe failure is swallowed. -/
theorem c7_fat_probe_error_policy_witness :
    @handle_fat_probe Nat
        (Except.error (ProbeError.image (ImageError.InvalidSignature [0, 0]))) =
      Except.ok none :=
  (c7_fat_probe_error_policy Nat
      (ProbeError.image (ImageError.InvalidSignature [0, 0]))).1.mpr ⟨[0, 0], rfl⟩

/-- Claim C8: a decoded directory entry is valid iff both the first filename
byte and the first extension byte are non-zero; a first filename byte of 0x00
yields no display name; 0xE5 yields a name starting with the byte of the
character the deleted marker displays as (0x3F); 0x05 yields a name starting
with the literal byte 0xE5; and in every case the remaining 7 name bytes are
carried over unchanged. -/
theorem c8_directory_entry_name_rules (data : Nat → Nat) (ft : FatType) :
    ((FatDirectoryEntry.from_data data ft).is_valid = true ↔ data 0 ≠ 0 ∧ data 8 ≠ 0)
    ∧ (data 0 = 0 → (FatDirectoryEntry.from_data data ft).get_filename_bytes = none)
    ∧ (data 0 = 0xe5 →
        (FatDirectoryEntry.from_data data ft).get_filename_bytes =
          some (0x3f :: [data 1, data 2, data 3, data 4, data 5, data 6, data 7]))
    ∧ (data 0 = 0x05 →
        (FatDirectoryEntry.from_data data ft).get_filename_bytes =
          some (0xe5 :: [data 1, data 2, data 3, data 4, data 5, data 6, data 7]))
    ∧ (¬(data 0 = 0 ∨ data 0 = 0x05 ∨ data 0 = 0xe5) →
        (FatDirectoryEntry.from_data data ft).get_filename_bytes =
          some [data 0, data 1, data 2, data 3, data 4, data 5, data 6, data 7]) := by
  have hname : (FatDirectoryEntry.from_data data ft).filename =
      [data 0, data 1, data 2, data 3, data 4, data 5, data 6, data 7] := by
    simp [FatDirectoryEntry.from_data, bytesAt, List.range_succ]
  have hext : (FatDirectoryEntry.from_data data ft).extension =
      [data 8, data 9, data 10] := by
    simp [FatDirectoryEntry.from_data, bytesAt, List.range_succ]
  refine ⟨?_, ?_, ?_, ?_, ?_⟩
  · rw [FatDirectoryEntry.is_valid, hname, hext]
    simp
  · intro h0
    rw [FatDirectoryEntry.get_filename_bytes, hname]
    simp [h0]
  · intro h0
    rw [FatDirectoryEntry.get_filename_bytes, hname]
    simp [h0]
  · intro h0
    rw [FatDirectoryEntry.get_filename_bytes, hname]
    simp [h0]
  · intro h0
    push_neg at h0
    rw [FatDirectoryEntry.get_filename_bytes, hname]
    simp [h0.1, h0.2.1, h0.2.2]

/-- The 32-byte window of a deleted directory entry: first filename byte
0xE5, all other bytes zero. -/
def c8DeletedEntry : Nat → Nat := fun i => if i = 0 then 0xe5 else 0

/-- Claim C8 witness: the deleted entry's display-name bytes start with 0x3F
and carry the remaining (zero) name bytes unchanged. -/
theorem c8_directory_entry_name_rules_witness :
    (FatDirectoryEntry.from_data c8DeletedEntry FatType.Fat16).get_filename_bytes =
      some [0x3f, 0, 0, 0, 0, 0, 0, 0] :=
  (c8_directory_entry_name_rules c8DeletedEntry FatType.Fat16).2.2.1 rfl

end DiskImageInspector
